import Mathlib

/-!
Verification of the brand-impersonation detection engine.

Shallow embedding of the JavaScript sources:
* `utils/domainSimilarity.js` (Levenshtein distance, similarity percentage,
  homoglyph table, typosquatting detector, brand-keyword matcher);
* `utils/htmlSimilarity.js` (Jaccard similarity, input-field comparison,
  structural comparison of two HTML fingerprints);
* the brand-monitoring pipeline (`analyzeSearchResult`: metadata scoring,
  crawl gate, severity);
* `search/multiEngineSearch.js` (URL normalization, per-engine result
  parsing with the shared dedup set, the `Promise.allSettled` aggregation
  loop).

Modelling conventions:
* JavaScript strings are `List Char`; JavaScript numbers are `ℚ` (every
  numeric computation the claims touch agrees exactly between IEEE doubles
  and `ℚ` at the values involved, and `Math.round` is `round`).
* HTML parsing (cheerio) is kept abstract: a function that parses a
  document receives the extracted data (fingerprint, anchor list, …) as an
  argument.
* Network effects are oracles: a fetch outcome is an `Except`/`Option`
  argument, and the fact that a fetch was issued is returned as data.
-/

namespace Hub

/-- JS `String.prototype.toLowerCase`, character-wise (faithful on ASCII). -/
def jsToLower (s : List Char) : List Char := s.map Char.toLower

/-- JS `str.replace(pat, '')` with a plain-string pattern: removes the first
occurrence of `pat` (leaves `s` unchanged when `pat` does not occur). -/
def replaceFirst (pat : List Char) : List Char → List Char
  | [] => []
  | c :: rest =>
    if pat.isPrefixOf (c :: rest) then (c :: rest).drop pat.length
    else c :: replaceFirst pat rest

/-- JS `s.includes(pat)`: `pat` occurs as a contiguous substring of `s`.
(The empty pattern is contained in every string, as in JS.) -/
def jsIncludes (s pat : List Char) : Bool :=
  match s with
  | [] => pat.isEmpty
  | c :: rest => pat.isPrefixOf (c :: rest) || jsIncludes rest pat

/-- Domain normalization used throughout `domainSimilarity.js`:
`x.toLowerCase().replace('.onion', '')`. -/
def normalizeDomain (s : List Char) : List Char :=
  replaceFirst (".onion".toList) (jsToLower s)

/-! ### Levenshtein distance (`levenshteinDistance`)

The source fills a `(b.length+1) × (a.length+1)` matrix where row `i`
corresponds to the prefix `b[0..i)` and column `j` to the prefix `a[0..j)`:
`matrix[i][0] = i`, `matrix[0][j] = j`, and for `i,j ≥ 1`
`matrix[i][j] = matrix[i-1][j-1]` when `b[i-1] == a[j-1]`, otherwise
`1 + min(matrix[i-1][j-1], matrix[i][j-1], matrix[i-1][j])`.
`levCellFuel` computes the defining recurrence of cell `(i, j)` directly
(`fuel` only drives structural termination; any `fuel ≥ i + j` gives the
matrix value — `levCellFuel_congr` below). -/

/-- Cell `(i, j)` of the source's DP matrix for arguments `(a, b)`,
computed with explicit fuel. -/
def levCellFuel (a b : List Char) : Nat → Nat → Nat → Nat
  | _, 0, j => j
  | _, i + 1, 0 => i + 1
  | 0, _ + 1, _ + 1 => 0
  | fuel + 1, i + 1, j + 1 =>
    if b.getD i 'a' = a.getD j 'a' then levCellFuel a b fuel i j
    else
      min (levCellFuel a b fuel i j + 1)
        (min (levCellFuel a b fuel (i + 1) j + 1)
          (levCellFuel a b fuel i (j + 1) + 1))

/-- `matrix[i][j]` of the source's DP. -/
def levCell (a b : List Char) (i j : Nat) : Nat := levCellFuel a b (i + j) i j

/-- `levenshteinDistance(a, b)` returns `matrix[b.length][a.length]`. -/
def levenshteinDistance (a b : List Char) : Nat :=
  levCell a b b.length a.length

/-- `calculateSimilarity(domain1, domain2)`: normalized edit-distance
similarity percentage `(maxLength - distance) / maxLength * 100`, modelled
in `ℚ` (for two empty strings JS yields `NaN`, here `0`; both compare false
against the `> 80` threshold). -/
def calculateSimilarity (domain1 domain2 : List Char) : ℚ :=
  let distance := levenshteinDistance domain1 domain2
  let maxLength := max domain1.length domain2.length
  ((maxLength : ℚ) - distance) / maxLength * 100

/-- The `HOMOGLYPHS` table. Non-ASCII look-alike characters are written by
code point: for `a` they are U+0430 (cyrillic a), U+0251 (latin alpha),
U+03B1 (greek alpha); for `e`: U+0435, U+0117, U+0113; for `i`: U+0456,
U+0131, `l`, `1`; for `o`: U+043E, `0`, U+03BF; for `p`: U+0440, U+03C1;
for `c`: U+0441, U+03F2; for `x`: U+0445, U+00D7; for `y`: U+0443, U+04AF;
for `n`: U+0578, U+057C; for `m`: U+043C, U+1E43. A character that is not a
key of the table maps to the empty list (the JS loop body is skipped). -/
def HOMOGLYPHS (c : Char) : List Char :=
  if c = 'a' then [Char.ofNat 0x0430, Char.ofNat 0x0251, Char.ofNat 0x03B1]
  else if c = 'e' then [Char.ofNat 0x0435, Char.ofNat 0x0117, Char.ofNat 0x0113]
  else if c = 'i' then [Char.ofNat 0x0456, Char.ofNat 0x0131, 'l', '1']
  else if c = 'o' then [Char.ofNat 0x043E, '0', Char.ofNat 0x03BF]
  else if c = 'p' then [Char.ofNat 0x0440, Char.ofNat 0x03C1]
  else if c = 'c' then [Char.ofNat 0x0441, Char.ofNat 0x03F2]
  else if c = 'x' then [Char.ofNat 0x0445, Char.ofNat 0x00D7]
  else if c = 'y' then [Char.ofNat 0x0443, Char.ofNat 0x04AF]
  else if c = 'n' then [Char.ofNat 0x0578, Char.ofNat 0x057C]
  else if c = 'm' then [Char.ofNat 0x043C, Char.ofNat 0x1E43]
  else []

/-- `detectHomoglyph(suspiciousDomain, legitimateDomain)`: true when some
single-character homoglyph substitution of the legitimate domain occurs as
a substring of the (normalized) suspicious domain. -/
def detectHomoglyph (suspiciousDomain legitimateDomain : List Char) : Bool :=
  let suspicious := normalizeDomain suspiciousDomain
  let legitimate := jsToLower legitimateDomain
  if suspicious = legitimate then false
  else
    (List.range legitimate.length).any fun i =>
      (HOMOGLYPHS (legitimate.getD i 'a')).any fun h =>
        jsIncludes suspicious
          (legitimate.take i ++ [h] ++ legitimate.drop (i + 1))

/-- The `matchType` tags used by `domainSimilarity.js`. -/
inductive MatchType where
  | direct_match
  | character_omission
  | character_addition
  | character_swap
  | homoglyph
  | high_similarity
  deriving DecidableEq

/-- `detectTyposquatting(suspiciousDomain, legitimateDomain)`. The JS result
object `{isTyposquatting, type, confidence}` is modelled as
`Option (MatchType × ℚ)`: `none` for `{isTyposquatting: false, type: null,
confidence: 0}`, and `some (type, confidence)` for a detection. The blocks
appear in source order; a block whose guard or search fails falls through
to the next one. -/
def detectTyposquatting (suspiciousDomain legitimateDomain : List Char) :
    Option (MatchType × ℚ) :=
  let suspicious := normalizeDomain suspiciousDomain
  let legitimate := jsToLower legitimateDomain
  if suspicious = legitimate then none
  else if (suspicious.length : Int) = (legitimate.length : Int) - 1 &&
      (List.range legitimate.length).any
        (fun i => suspicious = legitimate.take i ++ legitimate.drop (i + 1)) then
    some (.character_omission, 95)
  else if (suspicious.length : Int) = (legitimate.length : Int) + 1 &&
      (List.range (legitimate.length + 1)).any (fun i =>
        (List.range 26).any (fun k =>
          suspicious =
            legitimate.take i ++ [Char.ofNat (97 + k)] ++ legitimate.drop i)) then
    some (.character_addition, 90)
  else if suspicious.length = legitimate.length &&
      (List.range (legitimate.length - 1)).any (fun i =>
        suspicious =
          legitimate.take i ++
            [legitimate.getD (i + 1) 'a', legitimate.getD i 'a'] ++
              legitimate.drop (i + 2)) then
    some (.character_swap, 95)
  else if detectHomoglyph suspicious legitimate then
    some (.homoglyph, 85)
  else if calculateSimilarity suspicious legitimate > 80 then
    some (.high_similarity, calculateSimilarity suspicious legitimate)
  else
    none

/-- The match object returned by `checkBrandSimilarity` when
`match: true`. -/
structure BrandMatch where
  keyword : List Char
  type : MatchType
  confidence : ℚ
  deriving DecidableEq

/-- One iteration of the keyword loop of `checkBrandSimilarity`: direct
containment first, then `detectTyposquatting`. -/
def checkBrandKeyword (domain keyword : List Char) : Option BrandMatch :=
  let brand := jsToLower keyword
  if jsIncludes domain brand then
    some ⟨keyword, .direct_match, 100⟩
  else
    match detectTyposquatting domain brand with
    | some (t, conf) => some ⟨keyword, t, conf⟩
    | none => none

/-- The keyword loop of `checkBrandSimilarity`: first keyword that produces
a match wins. -/
def checkBrandLoop (domain : List Char) :
    List (List Char) → Option BrandMatch
  | [] => none
  | keyword :: rest =>
    match checkBrandKeyword domain keyword with
    | some m => some m
    | none => checkBrandLoop domain rest

/-- `checkBrandSimilarity(onionDomain, brandKeywords)`; `none` models the
`{match: false}` result. -/
def checkBrandSimilarity (onionDomain : List Char)
    (brandKeywords : List (List Char)) : Option BrandMatch :=
  checkBrandLoop (normalizeDomain onionDomain) brandKeywords

/-- The spec's `detect(D, K)`: the detector applied to a single brand
keyword (the direct-containment check of `checkBrandSimilarity` plus
`detectTyposquatting`). -/
def detect (candidateDomain keyword : List Char) : Option BrandMatch :=
  checkBrandSimilarity candidateDomain [keyword]

/-! ### Declarative rule predicates for the typosquatting detector

Each predicate restates, as a proposition, the condition under which one
block of `detectTyposquatting` (or the direct-containment check of
`checkBrandSimilarity`) fires, over the already-normalized suspicious
string `s` and legitimate string `l`. -/

/-- Rule 1 (direct): the lowercased keyword occurs as a substring of the
normalized candidate domain. -/
def ruleDirect (domain brand : List Char) : Prop := brand <:+: domain

/-- Rule 2: `s` is `l` with one character deleted (and the JS length guard
`s.length == l.length - 1` holds). -/
def ruleOmission (s l : List Char) : Prop :=
  (s.length : Int) = (l.length : Int) - 1 ∧
  ∃ i ∈ List.range l.length, s = l.take i ++ l.drop (i + 1)

/-- Rule 3: `s` is `l` with one lowercase ASCII letter (codes 97–122)
inserted. -/
def ruleAddition (s l : List Char) : Prop :=
  (s.length : Int) = (l.length : Int) + 1 ∧
  ∃ i ∈ List.range (l.length + 1), ∃ k ∈ List.range 26,
    s = l.take i ++ [Char.ofNat (97 + k)] ++ l.drop i

/-- Rule 4: `s` is `l` with two adjacent characters swapped. -/
def ruleSwap (s l : List Char) : Prop :=
  s.length = l.length ∧
  ∃ i ∈ List.range (l.length - 1),
    s = l.take i ++ [l.getD (i + 1) 'a', l.getD i 'a'] ++ l.drop (i + 2)

/-- Rule 5: some single-character homoglyph substitution of
`jsToLower l` occurs as a substring of `normalizeDomain s` (the rule
re-normalizes its inputs, as `detectHomoglyph` does). -/
def ruleHomoglyph (s l : List Char) : Prop :=
  normalizeDomain s ≠ jsToLower l ∧
  ∃ i ∈ List.range (jsToLower l).length,
    ∃ h ∈ HOMOGLYPHS ((jsToLower l).getD i 'a'),
      (jsToLower l).take i ++ [h] ++ (jsToLower l).drop (i + 1) <:+:
        normalizeDomain s

/-- Rule 6: normalized edit-distance similarity above 80 percent. -/
def ruleHighSimilarity (s l : List Char) : Prop :=
  calculateSimilarity s l > 80

instance (d b : List Char) : Decidable (ruleDirect d b) := by
  unfold ruleDirect
  infer_instance

instance (s l : List Char) : Decidable (ruleOmission s l) := by
  unfold ruleOmission
  infer_instance

instance (s l : List Char) : Decidable (ruleAddition s l) := by
  unfold ruleAddition
  infer_instance

instance (s l : List Char) : Decidable (ruleSwap s l) := by
  unfold ruleSwap
  infer_instance

instance (s l : List Char) : Decidable (ruleHomoglyph s l) := by
  unfold ruleHomoglyph
  infer_instance

instance (s l : List Char) : Decidable (ruleHighSimilarity s l) := by
  unfold ruleHighSimilarity
  infer_instance

/-! ### Structural similarity (`htmlSimilarity.js`)

`extractStructuralFeatures` runs cheerio over the document, so the
fingerprint is taken as data here (only the fields `compareHtmlStructure`
reads are modelled; `formCount`, `links` and `images` are extracted by the
source but never read by the comparator). -/

/-- One extracted `<input>` descriptor: `type` defaults to `"text"`,
`name`/`id` default to `""` in the extractor. -/
structure InputField where
  type : List Char
  name : List Char
  id : List Char
  deriving DecidableEq

/-- The structural fingerprint of a document (the fields the comparator
reads). -/
structure Features where
  title : List Char
  inputFields : List InputField
  cssClasses : List (List Char)
  ids : List (List Char)
  deriving DecidableEq

/-- The record returned by `compareHtmlStructure` (every field is a rounded
percentage). -/
structure SimilarityScore where
  overall : ℤ
  inputFields : ℤ
  cssClasses : ℤ
  ids : ℤ
  title : ℤ
  deriving DecidableEq

/-- `jaccardSimilarity(set1, set2)`: the arrays are converted to JS `Set`s
(here `Finset` via `toFinset`), and the score is `|∩| / |∪|`, with `0` for
an empty union. -/
def jaccardSimilarity (set1 set2 : List (List Char)) : ℚ :=
  let s1 := set1.toFinset
  let s2 := set2.toFinset
  if (s1 ∪ s2).card = 0 then 0
  else ((s1 ∩ s2).card : ℚ) / ((s1 ∪ s2).card : ℚ)

/-- `compareInputFields(inputs1, inputs2)`. The source sorts the two type
lists before passing them to `jaccardSimilarity`; sorting permutes a list
and `jaccardSimilarity` only reads the underlying set, so the sort is
omitted here. `filter(n => n)` keeps exactly the non-empty strings. -/
def compareInputFields (inputs1 inputs2 : List InputField) : ℚ :=
  if inputs1.length = 0 ∧ inputs2.length = 0 then 0
  else
    let typeSimilarity :=
      jaccardSimilarity (inputs1.map (·.type)) (inputs2.map (·.type))
    let nameSimilarity :=
      jaccardSimilarity (inputs1.map (·.name) |>.filter (fun n => !n.isEmpty))
        (inputs2.map (·.name) |>.filter (fun n => !n.isEmpty))
    let idSimilarity :=
      jaccardSimilarity (inputs1.map (·.id) |>.filter (fun i => !i.isEmpty))
        (inputs2.map (·.id) |>.filter (fun i => !i.isEmpty))
    typeSimilarity * 0.4 + nameSimilarity * 0.3 + idSimilarity * 0.3

/-- The comparison core of `compareHtmlStructure`, over two already
extracted fingerprints. -/
def compareFeatures (features1 features2 : Features) : SimilarityScore :=
  let inputSimilarity :=
    compareInputFields features1.inputFields features2.inputFields
  let cssSimilarity :=
    jaccardSimilarity features1.cssClasses features2.cssClasses
  let idSimilarity := jaccardSimilarity features1.ids features2.ids
  let titleSimilarity : ℚ :=
    if features1.title = features2.title then 1
    else if jsIncludes features1.title features2.title ||
        jsIncludes features2.title features1.title then 0.5
    else 0
  let overallSimilarity :=
    (inputSimilarity * 0.4 + cssSimilarity * 0.3 + idSimilarity * 0.2 +
      titleSimilarity * 0.1) * 100
  { overall := round overallSimilarity
    inputFields := round (inputSimilarity * 100)
    cssClasses := round (cssSimilarity * 100)
    ids := round (idSimilarity * 100)
    title := round (titleSimilarity * 100) }

/-- `compareHtmlStructure(html1, html2)` extracts both fingerprints with
the same extractor and compares them; the extractor (cheerio) is abstract
here. -/
def compareHtmlStructure (extractStructuralFeatures : List Char → Features)
    (html1 html2 : List Char) : SimilarityScore :=
  compareFeatures (extractStructuralFeatures html1)
    (extractStructuralFeatures html2)

/-! ### Analysis pipeline (`analyzeSearchResult`) -/

/-- Indicator tags pushed by `analyzeSearchResult` (the type-specific
payloads — confidence, matched keywords, counts — are carried by the JS
objects but no claim reads them, so only the tag is modelled). -/
inductive IndicatorType where
  | domain_similarity
  | keyword_in_metadata
  | keyword_match
  | login_form_detected
  | html_similarity
  | credentials_found
  | company_domain_mentioned
  deriving DecidableEq

/-- Severity tiers. -/
inductive Severity where
  | low
  | medium
  | high
  | critical
  deriving DecidableEq

/-- `calculateSeverity(score)`. -/
def calculateSeverity (score : ℚ) : Severity :=
  if score ≥ 9 then .critical
  else if score ≥ 7 then .high
  else if score ≥ 4 then .medium
  else .low

/-- One row handed to `analyzeSearchResult` by the search aggregator. -/
structure SearchResultItem where
  url : List Char
  title : List Char
  description : List Char
  deriving DecidableEq

/-- The brand profile fields the pipeline reads. -/
structure CompanyProfile where
  keywords : List (List Char)
  domains : List (List Char)

/-- The analysis options (`crawlHighSimilarity` is destructured by the
source but never read). -/
structure AnalyzeOptions where
  checkSimilarity : Bool
  crawlHighSimilarity : Bool
  similarityThreshold : ℚ

/-- The option defaults of `analyzeSearchResults`. -/
def defaultOptions : AnalyzeOptions :=
  { checkSimilarity := true, crawlHighSimilarity := true
    similarityThreshold := 70 }

/-- What `dataExtractor.extractAllData` returns (as far as the pipeline
reads it). -/
structure ExtractedData where
  keywords_found : List (List Char × Nat)
  credentials : List (List Char)
  clearnet_links : List (List Char)

/-- The external collaborators of the pipeline: the HTTP fetcher (an
oracle: `Except` error message, or the HTML string) and the two
HTML-parsing helpers. -/
structure Collaborators where
  fetchUrl : List Char → Except (List Char) (List Char)
  extractAllData : List Char → List Char → List (List Char) → ExtractedData
  hasLoginForm : List Char → Bool
  extractStructuralFeatures : List Char → Features

/-- JS truthiness of a nullable string (`null`/`undefined` and `""` are
falsy). -/
def jsTruthy : Option (List Char) → Bool
  | none => false
  | some s => !s.isEmpty

/-- The skip reason written when the crawl gate stays closed. -/
def skipReason : List Char :=
  "Low similarity - crawling skipped for efficiency".toList

/-- A produced finding (payload fields not read by any claim are omitted;
`was_crawled` is an `Option` because the JS field stays unset when the
fetch returns a falsy document). -/
structure Finding where
  url : List Char
  indicators : List IndicatorType
  severity_score : ℚ
  severity : Severity
  was_crawled : Option Bool
  crawl_error : Option (List Char)
  crawl_reason : Option (List Char)
  deriving DecidableEq

/-- The crawl-gate condition of `analyzeSearchResult` (line
`const shouldCrawl = …`). -/
def shouldCrawl (domainCheck : Option BrandMatch)
    (realSiteHtml : Option (List Char)) (options : AnalyzeOptions) : Bool :=
  (match domainCheck with
   | some m => decide (m.confidence ≥ options.similarityThreshold)
   | none => false) ||
  (options.checkSimilarity && jsTruthy realSiteHtml)

/-- `analyzeSearchResult(searchResult, companyProfile, realSiteHtml,
options)`. Returns the produced finding (`none` when the indicator list
ends empty, i.e. the JS function returns `null`) together with a `Bool`
recording whether the fetcher collaborator was invoked. -/
def analyzeSearchResult (collab : Collaborators)
    (searchResult : SearchResultItem) (companyProfile : CompanyProfile)
    (realSiteHtml : Option (List Char)) (options : AnalyzeOptions) :
    Option Finding × Bool :=
  -- Step 1: domain similarity (no crawling needed)
  let domainCheck :=
    checkBrandSimilarity searchResult.url companyProfile.keywords
  let indicators1 : List IndicatorType :=
    match domainCheck with
    | some _ => [.domain_similarity]
    | none => []
  let score1 : ℚ :=
    match domainCheck with
    | some m => m.confidence / 10
    | none => 0
  -- Step 2: keywords in title/description
  let textToCheck :=
    jsToLower (searchResult.title ++ [' '] ++ searchResult.description)
  let keywordMatches :=
    companyProfile.keywords.filter fun keyword =>
      jsIncludes textToCheck (jsToLower keyword)
  let indicators2 :=
    indicators1 ++
      (if keywordMatches.length > 0 then [IndicatorType.keyword_in_metadata]
       else [])
  let score2 := score1 + (if keywordMatches.length > 0 then 1 else 0)
  -- Step 3: crawl gate and (optional) fetch + content analysis
  let gate := shouldCrawl domainCheck realSiteHtml options
  let afterCrawl :
      List IndicatorType × ℚ × Option Bool × Option (List Char) ×
        Option (List Char) :=
    if gate then
      match collab.fetchUrl searchResult.url with
      | .error e => (indicators2, score2, some false, some e, none)
      | .ok html =>
        if html.isEmpty then
          -- `if (html)` is false: the try block ends without setting
          -- `was_crawled`
          (indicators2, score2, none, none, none)
        else
          let extracted :=
            collab.extractAllData html searchResult.url
              companyProfile.keywords
          let indicators3 :=
            indicators2 ++
              (if extracted.keywords_found.length > 0 then
                [IndicatorType.keyword_match]
               else [])
          let score3 :=
            score2 + (if extracted.keywords_found.length > 0 then 2 else 0)
          let indicators4 :=
            indicators3 ++
              (if collab.hasLoginForm html then
                [IndicatorType.login_form_detected]
               else [])
          let score4 := score3 + (if collab.hasLoginForm html then 3 else 0)
          let simGate :=
            options.checkSimilarity && jsTruthy realSiteHtml &&
              collab.hasLoginForm html
          let similarity :=
            compareHtmlStructure collab.extractStructuralFeatures html
              (realSiteHtml.getD [])
          let indicators5 :=
            indicators4 ++
              (if simGate && decide (similarity.overall > 60) then
                [IndicatorType.html_similarity]
               else [])
          let score5 :=
            score4 +
              (if simGate && decide (similarity.overall > 60) then
                (similarity.overall : ℚ) / 10
               else 0)
          let indicators6 :=
            indicators5 ++
              (if extracted.credentials.length > 0 then
                [IndicatorType.credentials_found]
               else [])
          let score6 :=
            score5 + (if extracted.credentials.length > 0 then 5 else 0)
          let companyDomainMentions :=
            extracted.clearnet_links.filter fun link =>
              companyProfile.domains.any fun domain => jsIncludes link domain
          let indicators7 :=
            indicators6 ++
              (if companyDomainMentions.length > 0 then
                [IndicatorType.company_domain_mentioned]
               else [])
          let score7 :=
            score6 + (if companyDomainMentions.length > 0 then 2 else 0)
          (indicators7, score7, some true, none, none)
    else
      (indicators2, score2, some false, none, some skipReason)
  let finding : Finding :=
    { url := searchResult.url
      indicators := afterCrawl.1
      severity_score := afterCrawl.2.1
      severity := calculateSeverity afterCrawl.2.1
      was_crawled := afterCrawl.2.2.1
      crawl_error := afterCrawl.2.2.2.1
      crawl_reason := afterCrawl.2.2.2.2 }
  (if finding.indicators.length > 0 then some finding else none, gate)

/-! ### Federated search aggregator (`multiEngineSearch.js`) -/

/-- One emitted search result row (`found_at`, a wall-clock timestamp, is
omitted). -/
structure SearchHit where
  title : List Char
  url : List Char
  description : List Char
  source_engine : List Char
  deriving DecidableEq

/-- `normalizeOnionUrl(url)`: strip a leading `http://` or `https://`
(the regex `^https?:\/\/`), then prepend `http://` unless the remainder
already starts with `http`. -/
def normalizeOnionUrl (url : List Char) : List Char :=
  let normalized :=
    if "http://".toList.isPrefixOf url then url.drop 7
    else if "https://".toList.isPrefixOf url then url.drop 8
    else url
  if "http".toList.isPrefixOf normalized then normalized
  else "http://".toList ++ normalized

/-- One result anchor as extracted by cheerio: its `href`, its trimmed
text, and the description text found next to it. -/
structure Anchor where
  href : List Char
  text : List Char
  description : List Char
  deriving DecidableEq

/-- The `$(selector).each` loop of `parseSearchResults`: stop at
`maxResults`, keep anchors whose `href` contains `.onion`, normalize, and
push unless the shared `seenUrls` set already has the normalized URL
(check-and-insert with no suspension in between). The JS truthiness guard
`if (url && …)` is subsumed by the `.onion` containment check (an empty
`href` contains no `.onion`). -/
def parseLoop (engineName : List Char) (maxResults : Nat) :
    List Anchor → List SearchHit → Finset (List Char) →
      List SearchHit × Finset (List Char)
  | [], results, seenUrls => (results, seenUrls)
  | anchor :: rest, results, seenUrls =>
    if results.length ≥ maxResults then (results, seenUrls)
    else if jsIncludes anchor.href (".onion".toList) then
      let normalizedUrl := normalizeOnionUrl anchor.href
      if normalizedUrl ∈ seenUrls then
        parseLoop engineName maxResults rest results seenUrls
      else
        parseLoop engineName maxResults rest
          (results ++
            [{ title :=
                if anchor.text.isEmpty then normalizedUrl else anchor.text
               url := normalizedUrl
               description := anchor.description
               source_engine := engineName }])
          (insert normalizedUrl seenUrls)
    else parseLoop engineName maxResults rest results seenUrls

/-- `parseSearchResults(engineName, html, maxResults, seenUrls)` with the
cheerio selector output abstracted into the anchor list (`searchAhmia`'s
result loop has the same check-and-insert structure after its URL-format
resolution). -/
def parseSearchResults (engineName : List Char) (anchors : List Anchor)
    (maxResults : Nat) (seenUrls : Finset (List Char)) :
    List SearchHit × Finset (List Char) :=
  parseLoop engineName maxResults anchors [] seenUrls

/-- Sequential composition of the per-engine parses over the shared
`seenUrls` set (JS is single-threaded: each synchronous parse runs
atomically between awaits, in some arrival order; the list argument is
that order). -/
def searchEnginesLoop (maxResults : Nat) :
    List (List Char × List Anchor) → Finset (List Char) →
      List SearchHit × Finset (List Char)
  | [], seenUrls => ([], seenUrls)
  | (engineName, anchors) :: rest, seenUrls =>
    let parsed := parseSearchResults engineName anchors maxResults seenUrls
    let restOut := searchEnginesLoop maxResults rest parsed.2
    (parsed.1 ++ restOut.1, restOut.2)

/-- All engines' parses starting from the empty shared set (the aggregated
`results.results` list of one `multiEngineSearch` run). -/
def searchAllEngines (engines : List (List Char × List Anchor))
    (maxResults : Nat) : List SearchHit :=
  (searchEnginesLoop maxResults engines ∅).1

/-- The value one `searchEngine`/`searchAhmia` promise fulfills with:
`{engine, results}` on success, `{engine, error, results: []}` from the
catch block. `results` is always a (truthy) array. -/
structure EngineReturn where
  engine : List Char
  results : List SearchHit
  error : Option (List Char)
  deriving DecidableEq

/-- A `Promise.allSettled` slot. -/
inductive SettledResult (α : Type) where
  | fulfilled (value : α)
  | rejected (reason : List Char)
  deriving DecidableEq

/-- `searchEngine` (and `searchAhmia`): the entire body sits in
`try … catch`, so the promise always fulfills — with the parsed results,
or with `{engine, error: message, results: []}` when anything threw
(timeout, network error, or the `'Could not find search token'` parse
error). The fetch/parse outcome is the oracle argument. -/
def searchEngine (engineName : List Char)
    (outcome : Except (List Char) (List SearchHit)) :
    SettledResult EngineReturn :=
  match outcome with
  | .ok results => .fulfilled ⟨engineName, results, none⟩
  | .error message => .fulfilled ⟨engineName, [], some message⟩

/-- The aggregation loop of `multiEngineSearch` over the settled slots:
`if (result.status === 'fulfilled' && result.value.results)` pushes the
results; the `else` branch pushes `{engine, error}`. The fulfilled value's
`results` field is always an array, and an array is truthy in JS, so the
first branch is taken for every fulfilled slot — including the ones whose
value carries an `error` field. -/
def aggregateSettled :
    List (List Char × SettledResult EngineReturn) →
      List SearchHit × List (List Char × List Char)
  | [] => ([], [])
  | (engineName, slot) :: rest =>
    let acc := aggregateSettled rest
    match slot with
    | .fulfilled value => (value.results ++ acc.1, acc.2)
    | .rejected reason => (acc.1, (engineName, reason) :: acc.2)

/-- `multiEngineSearch` outcome model: every engine's promise settles via
`searchEngine`, then the loop aggregates `(results, errors)`. -/
def multiEngineSearch
    (outcomes : List (List Char × Except (List Char) (List SearchHit))) :
    List SearchHit × List (List Char × List Char) :=
  aggregateSettled
    (outcomes.map fun p => (p.1, searchEngine p.1 p.2))

/-- Collaborators that never find anything (the fetcher always fails);
used to instantiate the pipeline on gate-closed runs, where no
collaborator is consulted. -/
def nullCollaborators : Collaborators :=
  { fetchUrl := fun _ => .error "fetch failed".toList
    extractAllData := fun _ _ _ => ⟨[], [], []⟩
    hasLoginForm := fun _ => false
    extractStructuralFeatures := fun _ =>
      ⟨[], [], [], []⟩ }

/-- A candidate whose domain matches no brand keyword but whose title
mentions one. -/
def demoSearchResult : SearchResultItem :=
  { url := "http://xyz.onion".toList
    title := "google login".toList
    description := [] }

/-- A one-keyword brand profile. -/
def demoProfile : CompanyProfile :=
  { keywords := ["google".toList], domains := [] }

/-- The finding `analyzeSearchResult` produces for `demoSearchResult`
against `demoProfile` with no reference page: gate closed, one
keyword-in-metadata indicator. -/
def skippedFinding : Finding :=
  { url := "http://xyz.onion".toList
    indicators := [.keyword_in_metadata]
    severity_score := 1
    severity := .low
    was_crawled := some false
    crawl_error := none
    crawl_reason := some skipReason }

/-- A candidate whose domain matches the first profile keyword only
weakly (homoglyph, confidence 85) although the second keyword would match
directly (confidence 100). -/
def gateSearchResult : SearchResultItem :=
  { url := "g0ogle.onion".toList
    title := []
    description := [] }

/-- A profile whose keyword list holds the weak match first and the
direct-match keyword second. -/
def gateProfile : CompanyProfile :=
  { keywords := ["google".toList, "g0ogle".toList], domains := [] }

/-- Analysis options with a similarity threshold of 90, between the first
match's confidence (85) and the best keyword's confidence (100). -/
def gateOptions : AnalyzeOptions :=
  { checkSimilarity := true, crawlHighSimilarity := true
    similarityThreshold := 90 }

/-- A sample successful search hit (used to exercise the aggregation
loop). -/
def demoHit : SearchHit :=
  { title := "Example Market".toList
    url := "http://example123abc.onion".toList
    description := "an example result".toList
    source_engine := "haystak".toList }

/-- A fingerprint whose document contains exactly the inputs
`{type: password, name: pwd}` and `{type: email, name: user}` (ids absent,
so defaulted to `""` by the extractor), title `"Login"`, and no classes or
ids. -/
def loginFingerprint : Features :=
  { title := "Login".toList
    inputFields :=
      [⟨"password".toList, "pwd".toList, []⟩,
       ⟨"email".toList, "user".toList, []⟩]
    cssClasses := []
    ids := [] }

/-- A fingerprint with an empty title and nothing else. -/
def emptyTitleFingerprint : Features :=
  { title := [], inputFields := [], cssClasses := [], ids := [] }

/-- A fingerprint whose title is `"a"` and nothing else. -/
def aTitleFingerprint : Features :=
  { title := "a".toList, inputFields := [], cssClasses := [], ids := [] }

/-! ## Theorems -/

/-- `jsIncludes` decides the infix relation. -/
theorem jsIncludes_iff_substring (s pat : List Char) :
    jsIncludes s pat = true ↔ pat <:+: s := by
  induction s with
  | nil =>
    simp [jsIncludes, List.isEmpty_iff, List.infix_nil]
  | cons c rest ih =>
    simp only [jsIncludes, Bool.or_eq_true, ih, List.isPrefixOf_iff_prefix]
    constructor
    · rintro (h | h)
      · exact h.isInfix
      · exact h.trans (List.suffix_cons c rest).isInfix
    · intro h
      rcases h with ⟨t₁, t₂, ht⟩
      match t₁, ht with
      | [], ht => exact Or.inl ⟨t₂, by simpa using ht⟩
      | d :: t₁, ht =>
        refine Or.inr ⟨t₁, t₂, ?_⟩
        simpa using congrArg List.tail ht

theorem levCellFuel_zero_left (a b : List Char) (f j : Nat) :
    levCellFuel a b f 0 j = j := by
  cases f <;> rfl

theorem levCellFuel_zero_right (a b : List Char) (f i : Nat) :
    levCellFuel a b f (i + 1) 0 = i + 1 := by
  cases f <;> rfl

theorem levCellFuel_succ (a b : List Char) (f i j : Nat) :
    levCellFuel a b (f + 1) (i + 1) (j + 1) =
      if b.getD i 'a' = a.getD j 'a' then levCellFuel a b f i j
      else
        min (levCellFuel a b f i j + 1)
          (min (levCellFuel a b f (i + 1) j + 1)
            (levCellFuel a b f i (j + 1) + 1)) := rfl

theorem levCellFuel_congr (a b : List Char) :
    ∀ f₁ f₂ i j, i + j ≤ f₁ → i + j ≤ f₂ →
      levCellFuel a b f₁ i j = levCellFuel a b f₂ i j := by
  intro f₁
  induction f₁ with
  | zero =>
    intro f₂ i j h₁ _
    match i, j, h₁ with
    | 0, j, _ => rw [levCellFuel_zero_left, levCellFuel_zero_left]
    | i + 1, 0, h₁ => omega
    | i + 1, j + 1, h₁ => omega
  | succ f₁ ih =>
    intro f₂ i j h₁ h₂
    match i, j with
    | 0, j => rw [levCellFuel_zero_left, levCellFuel_zero_left]
    | i + 1, 0 => rw [levCellFuel_zero_right, levCellFuel_zero_right]
    | i + 1, j + 1 =>
      match f₂, h₂ with
      | f₂ + 1, h₂ =>
        rw [levCellFuel_succ, levCellFuel_succ,
          ih f₂ i j (by omega) (by omega),
          ih f₂ (i + 1) j (by omega) (by omega),
          ih f₂ i (j + 1) (by omega) (by omega)]

theorem levCellFuel_eq_levCell (a b : List Char) (f i j : Nat)
    (h : i + j ≤ f) : levCellFuel a b f i j = levCell a b i j :=
  levCellFuel_congr a b f (i + j) i j h le_rfl

/-- The recurrence satisfied by `levCell`, matching the loop body of the
source. -/
theorem levCell_succ (a b : List Char) (i j : Nat) :
    levCell a b (i + 1) (j + 1) =
      if b.getD i 'a' = a.getD j 'a' then levCell a b i j
      else
        min (levCell a b i j + 1)
          (min (levCell a b (i + 1) j + 1) (levCell a b i (j + 1) + 1)) := by
  have h : levCell a b (i + 1) (j + 1) =
      levCellFuel a b (i + j + 1 + 1) (i + 1) (j + 1) := by
    unfold levCell
    congr 1
    omega
  rw [h, levCellFuel_succ,
    levCellFuel_eq_levCell a b (i + j + 1) i j (by omega),
    levCellFuel_eq_levCell a b (i + j + 1) (i + 1) j (by omega),
    levCellFuel_eq_levCell a b (i + j + 1) i (j + 1) (by omega)]

theorem levCell_zero_left (a b : List Char) (j : Nat) :
    levCell a b 0 j = j :=
  levCellFuel_zero_left a b (0 + j) j

theorem levCell_zero_right (a b : List Char) (i : Nat) :
    levCell a b i 0 = i := by
  cases i with
  | zero => exact levCellFuel_zero_left a b 0 0
  | succ i => exact levCellFuel_zero_right a b (i + 1 + 0) i

/-- Swapping the two argument strings transposes the DP matrix. -/
theorem levCell_symm (a b : List Char) :
    ∀ n i j, i + j ≤ n → levCell a b i j = levCell b a j i := by
  intro n
  induction n with
  | zero =>
    intro i j h
    match i, j, h with
    | 0, 0, _ => rfl
    | 0, j + 1, h => omega
    | i + 1, j, h => omega
  | succ n ih =>
    intro i j h
    match i, j with
    | 0, j => rw [levCell_zero_left, levCell_zero_right]
    | i + 1, 0 => rw [levCell_zero_left, levCell_zero_right]
    | i + 1, j + 1 =>
      rw [levCell_succ, levCell_succ,
        ih i j (by omega), ih (i + 1) j (by omega), ih i (j + 1) (by omega)]
      by_cases hc : b.getD i 'a' = a.getD j 'a'
      · rw [if_pos hc, if_pos hc.symm]
      · rw [if_neg hc, if_neg fun h => hc h.symm,
          min_comm (levCell b a j (i + 1) + 1) (levCell b a (j + 1) i + 1)]

theorem levCell_diag_self (a : List Char) : ∀ i, levCell a a i i = 0 := by
  intro i
  induction i with
  | zero => rfl
  | succ i ih => rw [levCell_succ, if_pos rfl, ih]

theorem detectHomoglyph_iff (s l : List Char) :
    detectHomoglyph s l = true ↔ ruleHomoglyph s l := by
  unfold detectHomoglyph ruleHomoglyph
  by_cases h : normalizeDomain s = jsToLower l
  · simp [h]
  · rw [if_neg h]
    simp only [List.any_eq_true, jsIncludes_iff_substring]
    exact (and_iff_right h).symm

theorem detectTyposquatting_priority (sd ld : List Char) :
    detectTyposquatting sd ld =
      if normalizeDomain sd = jsToLower ld then none
      else if ruleOmission (normalizeDomain sd) (jsToLower ld) then
        some (.character_omission, 95)
      else if ruleAddition (normalizeDomain sd) (jsToLower ld) then
        some (.character_addition, 90)
      else if ruleSwap (normalizeDomain sd) (jsToLower ld) then
        some (.character_swap, 95)
      else if ruleHomoglyph (normalizeDomain sd) (jsToLower ld) then
        some (.homoglyph, 85)
      else if ruleHighSimilarity (normalizeDomain sd) (jsToLower ld) then
        some (.high_similarity,
          calculateSimilarity (normalizeDomain sd) (jsToLower ld))
      else none := by
  simp only [detectTyposquatting]
  generalize normalizeDomain sd = s
  generalize jsToLower ld = l
  by_cases h0 : s = l
  · simp only [if_pos h0]
  · rw [if_neg h0, if_neg h0]
    have e2 : ((decide ((s.length : Int) = (l.length : Int) - 1) &&
        (List.range l.length).any
          (fun i => decide (s = l.take i ++ l.drop (i + 1)))) = true) ↔
        ruleOmission s l := by
      simp [ruleOmission, List.any_eq_true]
    have e3 : ((decide ((s.length : Int) = (l.length : Int) + 1) &&
        (List.range (l.length + 1)).any (fun i =>
          (List.range 26).any (fun k =>
            decide (s = l.take i ++ [Char.ofNat (97 + k)] ++ l.drop i)))) =
              true) ↔ ruleAddition s l := by
      simp [ruleAddition, List.any_eq_true]
    have e4 : ((decide (s.length = l.length) &&
        (List.range (l.length - 1)).any (fun i =>
          decide (s = l.take i ++ [l.getD (i + 1) 'a', l.getD i 'a'] ++
            l.drop (i + 2)))) = true) ↔ ruleSwap s l := by
      simp [ruleSwap, List.any_eq_true]
    by_cases h2 : ruleOmission s l
    · rw [if_pos (e2.mpr h2), if_pos h2]
    · rw [if_neg (fun hb => h2 (e2.mp hb)), if_neg h2]
      by_cases h3 : ruleAddition s l
      · rw [if_pos (e3.mpr h3), if_pos h3]
      · rw [if_neg (fun hb => h3 (e3.mp hb)), if_neg h3]
        by_cases h4 : ruleSwap s l
        · rw [if_pos (e4.mpr h4), if_pos h4]
        · rw [if_neg (fun hb => h4 (e4.mp hb)), if_neg h4]
          by_cases h5 : ruleHomoglyph s l
          · rw [if_pos ((detectHomoglyph_iff s l).mpr h5), if_pos h5]
          · rw [if_neg (fun hb => h5 ((detectHomoglyph_iff s l).mp hb)),
              if_neg h5]
            by_cases h6 : ruleHighSimilarity s l
            · rw [if_pos h6]
              exact if_pos h6
            · rw [if_neg h6]
              exact if_neg h6

/-- The per-keyword detector flattened into the rule cascade: the direct
check fires first, then the typosquatting blocks in source order. -/
theorem checkBrandKeyword_cascade (domain K : List Char) :
    checkBrandKeyword domain K =
      if ruleDirect domain (jsToLower K) then
        some ⟨K, .direct_match, 100⟩
      else if normalizeDomain domain = jsToLower (jsToLower K) then none
      else if ruleOmission (normalizeDomain domain) (jsToLower (jsToLower K))
          then some ⟨K, .character_omission, 95⟩
      else if ruleAddition (normalizeDomain domain) (jsToLower (jsToLower K))
          then some ⟨K, .character_addition, 90⟩
      else if ruleSwap (normalizeDomain domain) (jsToLower (jsToLower K))
          then some ⟨K, .character_swap, 95⟩
      else if ruleHomoglyph (normalizeDomain domain) (jsToLower (jsToLower K))
          then some ⟨K, .homoglyph, 85⟩
      else if ruleHighSimilarity (normalizeDomain domain)
          (jsToLower (jsToLower K)) then
        some ⟨K, .high_similarity,
          calculateSimilarity (normalizeDomain domain)
            (jsToLower (jsToLower K))⟩
      else none := by
  unfold checkBrandKeyword
  by_cases hd : ruleDirect domain (jsToLower K)
  · rw [if_pos ((jsIncludes_iff_substring domain (jsToLower K)).mpr hd),
      if_pos hd]
  · rw [if_neg (fun hb => hd ((jsIncludes_iff_substring domain (jsToLower K)).mp
        hb)), if_neg hd, detectTyposquatting_priority]
    split_ifs <;> rfl

/-- `detect` is the per-keyword detector applied to the normalized
candidate domain. -/
theorem detect_eq_checkBrandKeyword (D K : List Char) :
    detect D K = checkBrandKeyword (normalizeDomain D) K := by
  simp only [detect, checkBrandSimilarity, checkBrandLoop]
  cases checkBrandKeyword (normalizeDomain D) K
  · rfl
  · rfl

/-- C1: for every candidate domain `D` and brand keyword `K`, `detect`
returns exactly one match, chosen by the fixed rule priority order
direct > character_omission > character_addition > character_swap >
homoglyph > high_similarity (the equality guard of `detectTyposquatting`,
which yields no match, sits between the direct rule and the typo rules);
in particular, whenever the (lowercased) keyword is a substring of the
(normalized) domain the result is the direct match with confidence 100,
even when a later rule would also match. -/
theorem detect_fixed_priority (D K : List Char) :
    (detect D K =
      if ruleDirect (normalizeDomain D) (jsToLower K) then
        some ⟨K, .direct_match, 100⟩
      else if normalizeDomain (normalizeDomain D) = jsToLower (jsToLower K)
          then none
      else if ruleOmission (normalizeDomain (normalizeDomain D))
          (jsToLower (jsToLower K)) then some ⟨K, .character_omission, 95⟩
      else if ruleAddition (normalizeDomain (normalizeDomain D))
          (jsToLower (jsToLower K)) then some ⟨K, .character_addition, 90⟩
      else if ruleSwap (normalizeDomain (normalizeDomain D))
          (jsToLower (jsToLower K)) then some ⟨K, .character_swap, 95⟩
      else if ruleHomoglyph (normalizeDomain (normalizeDomain D))
          (jsToLower (jsToLower K)) then some ⟨K, .homoglyph, 85⟩
      else if ruleHighSimilarity (normalizeDomain (normalizeDomain D))
          (jsToLower (jsToLower K)) then
        some ⟨K, .high_similarity,
          calculateSimilarity (normalizeDomain (normalizeDomain D))
            (jsToLower (jsToLower K))⟩
      else none) ∧
    (ruleDirect (normalizeDomain D) (jsToLower K) →
      detect D K = some ⟨K, .direct_match, 100⟩) := by
  constructor
  · rw [detect_eq_checkBrandKeyword, checkBrandKeyword_cascade]
  · intro h
    rw [detect_eq_checkBrandKeyword, checkBrandKeyword_cascade, if_pos h]

/-- Witness for C1 at `D = "ggoogle"`, `K = "google"`: the direct rule
holds, rule 3 (character addition) would also match, and the result is the
direct match with confidence 100. -/
theorem detect_fixed_priority_witness :
    ruleDirect (normalizeDomain "ggoogle".toList) (jsToLower "google".toList) ∧
    ruleAddition (normalizeDomain (normalizeDomain "ggoogle".toList))
      (jsToLower (jsToLower "google".toList)) ∧
    detect "ggoogle".toList "google".toList =
      some ⟨"google".toList, .direct_match, 100⟩ := by
  refine ⟨by decide, by decide, ?_⟩
  exact (detect_fixed_priority "ggoogle".toList "google".toList).2 (by decide)

/-- C6 counterexample: `detect("g00gle", "google")` produces no match at
all — in particular no match of type homoglyph or high_similarity with
confidence ≥ 80. (The homoglyph rule substitutes a single character of the
keyword, so the double substitution `o→0, o→0` is not generated, and the
edit-distance similarity is 200/3 ≈ 66.7, below the 80 threshold.) -/
theorem detect_g00gle_google_none :
    detect "g00gle".toList "google".toList = none := by
  with_unfolding_all decide

/-- C6 amended: for a single-character homoglyph substitution the claimed
behavior holds: `detect("g0ogle", "google")` returns the homoglyph match
with confidence 85 ≥ 80. -/
theorem detect_g0ogle_google_homoglyph :
    detect "g0ogle".toList "google".toList =
      some ⟨"google".toList, .homoglyph, 85⟩ ∧ (80 : ℚ) ≤ 85 := by
  constructor
  · with_unfolding_all decide
  · with_unfolding_all decide

/-- C4 counterexample: for domain `"googel"` and keyword list
`["google", "googel"]`, `checkBrandSimilarity` returns the first keyword's
character-swap match with confidence 95, although the second keyword in
the list would yield a direct match with confidence 100 > 95 — the
returned match is not the highest-confidence one over the list. -/
theorem checkBrandSimilarity_not_best :
    checkBrandSimilarity "googel".toList
        ["google".toList, "googel".toList] =
      some ⟨"google".toList, .character_swap, 95⟩ ∧
    checkBrandKeyword (normalizeDomain "googel".toList) "googel".toList =
      some ⟨"googel".toList, .direct_match, 100⟩ ∧
    (95 : ℚ) < 100 := by
  refine ⟨?_, ?_, ?_⟩
  · with_unfolding_all decide
  · with_unfolding_all decide
  · with_unfolding_all decide

/-- C4 amended: `checkBrandSimilarity` returns the match of the first
keyword (in list order) that matches at all; every earlier keyword
produces no match, but a later keyword may have strictly higher
confidence. -/
theorem checkBrandSimilarity_first_match (D : List Char)
    (ks : List (List Char)) (m : BrandMatch)
    (h : checkBrandSimilarity D ks = some m) :
    ∃ i, ∃ hi : i < ks.length,
      checkBrandKeyword (normalizeDomain D) (ks.get ⟨i, hi⟩) = some m ∧
      ∀ j, ∀ hj : j < ks.length, j < i →
        checkBrandKeyword (normalizeDomain D) (ks.get ⟨j, hj⟩) = none := by
  unfold checkBrandSimilarity at h
  induction ks with
  | nil => exact absurd h (by simp [checkBrandLoop])
  | cons k rest ih =>
    rw [checkBrandLoop] at h
    cases hk : checkBrandKeyword (normalizeDomain D) k with
    | some m' =>
      rw [hk] at h
      refine ⟨0, by simp, ?_, ?_⟩
      · simpa [hk] using h
      · intro j hj hj0
        omega
    | none =>
      rw [hk] at h
      obtain ⟨i, hi, hmatch, hearlier⟩ := ih h
      refine ⟨i + 1, by simpa using Nat.succ_lt_succ hi, hmatch, ?_⟩
      intro j hj hji
      cases j with
      | zero => exact hk
      | succ j =>
        have hj' : j < rest.length := Nat.lt_of_succ_lt_succ hj
        have hnone := hearlier j hj' (by omega)
        simpa using hnone

/-- Witness for the amended C4 at the counterexample input. -/
theorem checkBrandSimilarity_first_match_witness :
    ∃ i, ∃ hi : i < (["google".toList, "googel".toList] :
        List (List Char)).length,
      checkBrandKeyword (normalizeDomain "googel".toList)
          ((["google".toList, "googel".toList] :
            List (List Char)).get ⟨i, hi⟩) =
        some ⟨"google".toList, .character_swap, 95⟩ ∧
      ∀ j, ∀ hj : j < (["google".toList, "googel".toList] :
          List (List Char)).length, j < i →
        checkBrandKeyword (normalizeDomain "googel".toList)
            ((["google".toList, "googel".toList] :
              List (List Char)).get ⟨j, hj⟩) = none :=
  checkBrandSimilarity_first_match "googel".toList
    ["google".toList, "googel".toList]
    ⟨"google".toList, .character_swap, 95⟩ (by with_unfolding_all decide)

/-- C9: the DP edit distance is symmetric, and the distance from a string
to itself is zero. -/
theorem levenshtein_symm_and_refl :
    (∀ a b : List Char, levenshteinDistance a b = levenshteinDistance b a) ∧
    (∀ a : List Char, levenshteinDistance a a = 0) := by
  constructor
  · intro a b
    exact levCell_symm a b (b.length + a.length) b.length a.length le_rfl
  · intro a
    exact levCell_diag_self a a.length

theorem jaccardSimilarity_comm (set1 set2 : List (List Char)) :
    jaccardSimilarity set1 set2 = jaccardSimilarity set2 set1 := by
  simp only [jaccardSimilarity]
  rw [Finset.union_comm, Finset.inter_comm]

theorem jaccardSimilarity_nonneg (set1 set2 : List (List Char)) :
    0 ≤ jaccardSimilarity set1 set2 := by
  simp only [jaccardSimilarity]
  split
  · exact le_refl 0
  · apply div_nonneg <;> positivity

theorem jaccardSimilarity_le_one (set1 set2 : List (List Char)) :
    jaccardSimilarity set1 set2 ≤ 1 := by
  simp only [jaccardSimilarity]
  split
  · norm_num
  · rename_i hcard
    have hpos : (0 : ℚ) < ((set1.toFinset ∪ set2.toFinset).card : ℚ) := by
      exact_mod_cast Nat.pos_of_ne_zero hcard
    rw [div_le_one hpos]
    exact_mod_cast Finset.card_le_card Finset.inter_subset_union

theorem compareInputFields_comm (inputs1 inputs2 : List InputField) :
    compareInputFields inputs1 inputs2 = compareInputFields inputs2 inputs1 := by
  simp only [compareInputFields]
  by_cases h : inputs1.length = 0 ∧ inputs2.length = 0
  · rw [if_pos h, if_pos ⟨h.2, h.1⟩]
  · rw [if_neg h, if_neg fun h' => h ⟨h'.2, h'.1⟩,
      jaccardSimilarity_comm (inputs1.map fun f => f.type),
      jaccardSimilarity_comm
        ((inputs1.map fun f => f.name).filter fun n => !n.isEmpty),
      jaccardSimilarity_comm
        ((inputs1.map fun f => f.id).filter fun i => !i.isEmpty)]

theorem compareFeatures_comm (features1 features2 : Features) :
    compareFeatures features1 features2 = compareFeatures features2 features1 := by
  simp only [compareFeatures]
  have htitle : (if features1.title = features2.title then (1 : ℚ)
      else if (jsIncludes features1.title features2.title ||
          jsIncludes features2.title features1.title) = true then 0.5
      else 0) =
      (if features2.title = features1.title then (1 : ℚ)
      else if (jsIncludes features2.title features1.title ||
          jsIncludes features1.title features2.title) = true then 0.5
      else 0) := by
    by_cases ht : features1.title = features2.title
    · rw [if_pos ht, if_pos ht.symm]
    · rw [if_neg ht,
        if_neg (fun h : features2.title = features1.title => ht h.symm),
        Bool.or_comm (jsIncludes features1.title features2.title)]
  rw [compareInputFields_comm, jaccardSimilarity_comm features1.cssClasses,
    jaccardSimilarity_comm features1.ids, htitle]

/-- C10: `compareHtmlStructure` is symmetric in its two documents — every
field of the returned score record is unchanged when the arguments are
swapped (for any fingerprint extractor standing in for the cheerio-based
`extractStructuralFeatures`). -/
theorem compareHtmlStructure_symm (extract : List Char → Features)
    (html1 html2 : List Char) :
    compareHtmlStructure extract html1 html2 =
      compareHtmlStructure extract html2 html1 := by
  unfold compareHtmlStructure
  exact compareFeatures_comm (extract html1) (extract html2)

/-- C5 counterexample: two documents that each contain exactly the inputs
`{type: password, name: pwd}` and `{type: email, name: user}` and share
the title `"Login"` (and have no classes or ids) score `overall = 38`,
not 100: the two inputs have empty `id`s, so the input-id Jaccard is 0 and
`inputSimilarity` is 0.7, giving `round((0.7·0.4 + 0 + 0 + 1·0.1)·100) =
38`. -/
theorem compareHtmlStructure_login_pair_overall :
    (compareHtmlStructure (fun _ => loginFingerprint)
        "candidate.html".toList "reference.html".toList).overall = 38 ∧
    (38 : ℤ) ≠ 100 := by
  constructor
  · with_unfolding_all decide
  · with_unfolding_all decide

/-- C5 amended: for any two documents whose fingerprints contain exactly
those two inputs and identical titles, `overall` is at most 88 (0.28 from
the input blend, at most 0.3 + 0.2 from classes and ids, 0.1 from the
title), hence never 100; it is exactly 38 when classes and ids are absent
(previous theorem). -/
theorem compareHtmlStructure_login_pair_le (extract : List Char → Features)
    (html1 html2 : List Char)
    (hin1 : (extract html1).inputFields =
      [⟨"password".toList, "pwd".toList, []⟩,
       ⟨"email".toList, "user".toList, []⟩])
    (hin2 : (extract html2).inputFields =
      [⟨"password".toList, "pwd".toList, []⟩,
       ⟨"email".toList, "user".toList, []⟩])
    (ht : (extract html1).title = (extract html2).title) :
    (compareHtmlStructure extract html1 html2).overall ≤ 88 := by
  have hinput : compareInputFields
      [(⟨"password".toList, "pwd".toList, []⟩ : InputField),
       ⟨"email".toList, "user".toList, []⟩]
      [⟨"password".toList, "pwd".toList, []⟩,
       ⟨"email".toList, "user".toList, []⟩] = 0.7 := by
    with_unfolding_all decide
  simp only [compareHtmlStructure, compareFeatures, hin1, hin2, hinput,
    if_pos ht]
  have hc0 := jaccardSimilarity_nonneg (extract html1).cssClasses
    (extract html2).cssClasses
  have hc1 := jaccardSimilarity_le_one (extract html1).cssClasses
    (extract html2).cssClasses
  have hi0 := jaccardSimilarity_nonneg (extract html1).ids
    (extract html2).ids
  have hi1 := jaccardSimilarity_le_one (extract html1).ids
    (extract html2).ids
  have hle : ((0.7 : ℚ) * 0.4 +
      jaccardSimilarity (extract html1).cssClasses
        (extract html2).cssClasses * 0.3 +
      jaccardSimilarity (extract html1).ids (extract html2).ids * 0.2 +
      1 * 0.1) * 100 ≤ 88 := by
    nlinarith
  calc round (((0.7 : ℚ) * 0.4 +
      jaccardSimilarity (extract html1).cssClasses
        (extract html2).cssClasses * 0.3 +
      jaccardSimilarity (extract html1).ids (extract html2).ids * 0.2 +
      1 * 0.1) * 100) ≤ round (88 : ℚ) := by
        rw [round_eq, round_eq]
        exact Int.floor_le_floor (by linarith)
    _ = 88 := by norm_num

/-- Witness for the amended C5 at the concrete login fingerprints. -/
theorem compareHtmlStructure_login_pair_le_witness :
    (compareHtmlStructure (fun _ => loginFingerprint)
        "candidate.html".toList "reference.html".toList).overall ≤ 88 :=
  compareHtmlStructure_login_pair_le (fun _ => loginFingerprint)
    "candidate.html".toList "reference.html".toList rfl rfl rfl

/-- C7 counterexample: an empty title against the non-empty title `"a"`
scores 50 (i.e. sub-score 0.5), because JS `"a".includes("")` is true —
the claimed empty-title exception does not exist in the code. -/
theorem compareFeatures_empty_title_half :
    (compareFeatures emptyTitleFingerprint aTitleFingerprint).title = 50 ∧
    (50 : ℤ) ≠ 0 := by
  constructor
  · with_unfolding_all decide
  · with_unfolding_all decide

/-- C7 amended: the reported title sub-score is 100 when the titles are
identical, 50 when they differ but either title (the empty title included)
is a substring of the other, and 0 otherwise. -/
theorem compareFeatures_title_cases (features1 features2 : Features) :
    (features1.title = features2.title →
      (compareFeatures features1 features2).title = 100) ∧
    (features1.title ≠ features2.title →
      (features2.title <:+: features1.title ∨
        features1.title <:+: features2.title) →
      (compareFeatures features1 features2).title = 50) ∧
    (features1.title ≠ features2.title →
      ¬(features2.title <:+: features1.title ∨
        features1.title <:+: features2.title) →
      (compareFeatures features1 features2).title = 0) := by
  refine ⟨?_, ?_, ?_⟩
  · intro h
    simp only [compareFeatures]
    rw [if_pos h]
    norm_num
  · intro h hsub
    have hb : (jsIncludes features1.title features2.title ||
        jsIncludes features2.title features1.title) = true := by
      rcases hsub with hs | hs
      · exact Bool.or_eq_true_iff.mpr
          (Or.inl ((jsIncludes_iff_substring _ _).mpr hs))
      · exact Bool.or_eq_true_iff.mpr
          (Or.inr ((jsIncludes_iff_substring _ _).mpr hs))
    simp only [compareFeatures]
    rw [if_neg h, if_pos hb]
    norm_num [round_eq]
  · intro h hsub
    have hb : ¬((jsIncludes features1.title features2.title ||
        jsIncludes features2.title features1.title) = true) := by
      rw [Bool.or_eq_true_iff, jsIncludes_iff_substring, jsIncludes_iff_substring]
      exact fun hs => hsub (hs.imp id id)
    simp only [compareFeatures]
    rw [if_neg h, if_neg hb]
    norm_num

/-- Witness for the amended C7: the empty/`"a"` pair takes the substring
branch. -/
theorem compareFeatures_title_cases_witness :
    emptyTitleFingerprint.title ≠ aTitleFingerprint.title ∧
    (compareFeatures emptyTitleFingerprint aTitleFingerprint).title = 50 :=
  ⟨by decide,
    (compareFeatures_title_cases emptyTitleFingerprint aTitleFingerprint).2.1
      (by decide) (Or.inr (by decide))⟩

/-- Every engine promise settles as fulfilled (the whole engine body is
wrapped in `try … catch`), so the aggregation loop's error branch is never
taken: the errors list of a run is always empty. -/
theorem multiEngineSearch_errors_empty
    (outcomes : List (List Char × Except (List Char) (List SearchHit))) :
    (multiEngineSearch outcomes).2 = [] := by
  unfold multiEngineSearch
  induction outcomes with
  | nil => rfl
  | cons p rest ih =>
    obtain ⟨name, outcome⟩ := p
    cases outcome with
    | ok results => simpa [aggregateSettled, searchEngine] using ih
    | error message => simpa [aggregateSettled, searchEngine] using ih

/-- C2 (code defect): with the ahmia backend failing (its search token is
missing, so `searchAhmia` settles with `{engine, error, results: []}`) and
haystak succeeding, the run still returns haystak's results — but the
errors list is empty: the failed backend gets no error entry, because the
fulfilled value's (empty, hence truthy) `results` array routes it into the
success branch of the aggregation loop. -/
theorem multiEngineSearch_failed_engine_not_in_errors :
    multiEngineSearch
      [("ahmia".toList, .error "Could not find search token".toList),
       ("haystak".toList, .ok [demoHit])] = ([demoHit], []) := rfl

/-- The invariant of the `parseSearchResults` result loop: every pushed
hit's URL is in the final seen set, the seen set only grows, the pushed
URLs stay pairwise distinct, and every newly pushed hit's URL was not in
the incoming seen set. -/
theorem parseLoop_inv (engineName : List Char) (maxResults : Nat) :
    ∀ (anchors : List Anchor) (results : List SearchHit)
      (seenUrls : Finset (List Char)),
      (∀ r ∈ results, r.url ∈ seenUrls) →
      (results.map (fun r => r.url)).Nodup →
      (∀ r ∈ (parseLoop engineName maxResults anchors results seenUrls).1,
        r.url ∈ (parseLoop engineName maxResults anchors results seenUrls).2) ∧
      seenUrls ⊆ (parseLoop engineName maxResults anchors results seenUrls).2 ∧
      ((parseLoop engineName maxResults anchors results seenUrls).1.map
        (fun r => r.url)).Nodup ∧
      (∀ r ∈ (parseLoop engineName maxResults anchors results seenUrls).1,
        r ∉ results → r.url ∉ seenUrls) := by
  intro anchors
  induction anchors with
  | nil =>
    intro results seenUrls hmem hnodup
    exact ⟨hmem, Finset.Subset.refl _, hnodup, fun r hr hnot => absurd hr hnot⟩
  | cons anchor rest ih =>
    intro results seenUrls hmem hnodup
    rw [parseLoop]
    by_cases hcap : results.length ≥ maxResults
    · rw [if_pos hcap]
      exact ⟨hmem, Finset.Subset.refl _, hnodup,
        fun r hr hnot => absurd hr hnot⟩
    · rw [if_neg hcap]
      by_cases honion : jsIncludes anchor.href (".onion".toList) = true
      · rw [if_pos honion]
        by_cases hseen : normalizeOnionUrl anchor.href ∈ seenUrls
        · rw [if_pos hseen]
          exact ih results seenUrls hmem hnodup
        · rw [if_neg hseen]
          set hit : SearchHit :=
            { title :=
                if anchor.text.isEmpty then normalizeOnionUrl anchor.href
                else anchor.text
              url := normalizeOnionUrl anchor.href
              description := anchor.description
              source_engine := engineName } with hhit
          have hurl : hit.url = normalizeOnionUrl anchor.href := rfl
          have hmem' : ∀ r ∈ results ++ [hit],
              r.url ∈ insert (normalizeOnionUrl anchor.href) seenUrls := by
            intro r hr
            rcases List.mem_append.mp hr with h | h
            · exact Finset.mem_insert_of_mem (hmem r h)
            · rcases List.mem_singleton.mp h with rfl
              rw [hurl]
              exact Finset.mem_insert_self _ _
          have hnodup' : ((results ++ [hit]).map (fun r => r.url)).Nodup := by
            rw [List.map_append, List.nodup_append]
            refine ⟨hnodup, List.nodup_singleton _, ?_⟩
            intro u hu hu'
            simp only [List.map_cons, List.map_nil, List.mem_singleton]
              at hu'
            subst hu'
            rcases List.mem_map.mp hu with ⟨r, hr, hru⟩
            have hin : normalizeOnionUrl anchor.href ∈ seenUrls := by
              rw [← hru]
              exact hmem r hr
            exact hseen hin
          obtain ⟨a, b, c, d⟩ := ih _ _ hmem' hnodup'
          refine ⟨a, fun u hu =>
            b (Finset.mem_insert_of_mem hu), c, ?_⟩
          intro r hr hnot
          by_cases hr' : r ∈ results ++ [hit]
          · rcases List.mem_append.mp hr' with h | h
            · exact absurd h hnot
            · rcases List.mem_singleton.mp h with rfl
              rw [hurl]
              exact hseen
          · intro hin
            exact d r hr hr' (Finset.mem_insert_of_mem hin)
      · rw [if_neg honion]
        exact ih results seenUrls hmem hnodup

/-- The same invariant carried across the engines, with the shared set
threaded from one parse to the next. -/
theorem searchEnginesLoop_inv (maxResults : Nat) :
    ∀ (engines : List (List Char × List Anchor))
      (seenUrls : Finset (List Char)),
      (∀ r ∈ (searchEnginesLoop maxResults engines seenUrls).1,
        r.url ∈ (searchEnginesLoop maxResults engines seenUrls).2) ∧
      seenUrls ⊆ (searchEnginesLoop maxResults engines seenUrls).2 ∧
      ((searchEnginesLoop maxResults engines seenUrls).1.map
        (fun r => r.url)).Nodup ∧
      (∀ r ∈ (searchEnginesLoop maxResults engines seenUrls).1,
        r.url ∉ seenUrls) := by
  intro engines
  induction engines with
  | nil =>
    intro seenUrls
    exact ⟨by simp [searchEnginesLoop], Finset.Subset.refl _,
      by simp [searchEnginesLoop], by simp [searchEnginesLoop]⟩
  | cons e rest ih =>
    intro seenUrls
    obtain ⟨pa, pb, pc, pd⟩ :=
      parseLoop_inv e.1 maxResults e.2 [] seenUrls (by simp) (by simp)
    obtain ⟨ra, rb, rc, rd⟩ :=
      ih (parseSearchResults e.1 e.2 maxResults seenUrls).2
    rw [searchEnginesLoop]
    refine ⟨?_, ?_, ?_, ?_⟩
    · intro r hr
      rcases List.mem_append.mp hr with h | h
      · exact rb (pa r h)
      · exact ra r h
    · exact fun u hu => rb (pb hu)
    · rw [List.map_append, List.nodup_append]
      refine ⟨pc, rc, ?_⟩
      intro u hu hu'
      rcases List.mem_map.mp hu with ⟨r, hr, hru⟩
      rcases List.mem_map.mp hu' with ⟨r', hr', hru'⟩
      exact rd r' hr' (hru' ▸ hru ▸ pa r hr)
    · intro r hr
      rcases List.mem_append.mp hr with h | h
      · exact pd r h (by simp)
      · exact fun hin => rd r h (pb hin)

/-- C8: across one aggregator run, the aggregated result list never
contains the same normalized URL twice, whichever anchor lists the engines
produce — the shared seen set records each normalized URL once.
Concretely, the same URL reported by two engines appears exactly once,
attributed to the engine processed first. -/
theorem searchAllEngines_dedup :
    (∀ (engines : List (List Char × List Anchor)) (maxResults : Nat),
      ((searchAllEngines engines maxResults).map (fun r => r.url)).Nodup) ∧
    searchAllEngines
      [("ahmia".toList,
        [⟨"http://dupsite.onion".toList, "Dup A".toList, "d1".toList⟩]),
       ("torch".toList,
        [⟨"http://dupsite.onion".toList, "Dup B".toList, "d2".toList⟩])]
      20 =
      [{ title := "Dup A".toList, url := "http://dupsite.onion".toList
         description := "d1".toList, source_engine := "ahmia".toList }] := by
  constructor
  · intro engines maxResults
    exact (searchEnginesLoop_inv maxResults engines ∅).2.2.1
  · rfl

/-- The second component of `analyzeSearchResult` is the crawl-gate
condition. -/
theorem analyzeSearchResult_snd (collab : Collaborators)
    (searchResult : SearchResultItem) (companyProfile : CompanyProfile)
    (realSiteHtml : Option (List Char)) (options : AnalyzeOptions) :
    (analyzeSearchResult collab searchResult companyProfile realSiteHtml
      options).2 =
      shouldCrawl
        (checkBrandSimilarity searchResult.url companyProfile.keywords)
        realSiteHtml options := rfl

/-- The crawl-gate condition, spelled declaratively. -/
theorem shouldCrawl_iff (domainCheck : Option BrandMatch)
    (realSiteHtml : Option (List Char)) (options : AnalyzeOptions) :
    shouldCrawl domainCheck realSiteHtml options = true ↔
      (∃ m, domainCheck = some m ∧
        options.similarityThreshold ≤ m.confidence) ∨
      (options.checkSimilarity = true ∧ jsTruthy realSiteHtml = true) := by
  cases domainCheck with
  | none => simp [shouldCrawl]
  | some m => simp [shouldCrawl, ge_iff_le]

/-- C3 amended: the candidate's full HTML is fetched if and only if the
match returned by `checkBrandSimilarity` — the first matching keyword's
match, not the highest-confidence one over the keyword list — reaches the
similarity threshold, or the structural check is enabled with a (truthy)
downloaded reference page; when the gate stays closed the produced
finding has `was_crawled = false` with the skip reason recorded, and its
indicator list holds at most the two metadata-scoring indicator types. -/
theorem analyzeSearchResult_crawl_gate (collab : Collaborators)
    (searchResult : SearchResultItem) (companyProfile : CompanyProfile)
    (realSiteHtml : Option (List Char)) (options : AnalyzeOptions) :
    ((analyzeSearchResult collab searchResult companyProfile realSiteHtml
        options).2 = true ↔
      (∃ m, checkBrandSimilarity searchResult.url companyProfile.keywords =
          some m ∧ options.similarityThreshold ≤ m.confidence) ∨
      (options.checkSimilarity = true ∧ jsTruthy realSiteHtml = true)) ∧
    ((analyzeSearchResult collab searchResult companyProfile realSiteHtml
        options).2 = false →
      ∀ f, (analyzeSearchResult collab searchResult companyProfile
          realSiteHtml options).1 = some f →
        f.was_crawled = some false ∧ f.crawl_reason = some skipReason ∧
        ∀ t ∈ f.indicators,
          t = IndicatorType.domain_similarity ∨
          t = IndicatorType.keyword_in_metadata) := by
  constructor
  · rw [analyzeSearchResult_snd]
    exact shouldCrawl_iff _ _ _
  · intro hgate f hf
    rw [analyzeSearchResult_snd] at hgate
    simp only [analyzeSearchResult, hgate, Bool.false_eq_true, if_false]
      at hf
    split at hf <;> split at hf <;>
      first
      | exact Option.noConfusion hf
      | · rcases Option.some.inj hf with rfl
          refine ⟨rfl, rfl, ?_⟩
          intro t ht
          rcases List.mem_append.mp ht with h | h
          · rcases hdc : checkBrandSimilarity searchResult.url
                companyProfile.keywords with _ | m
            · rw [hdc] at h
              cases h
            · rw [hdc] at h
              exact Or.inl (List.mem_singleton.mp h)
          · first
            | exact Or.inr (List.mem_singleton.mp h)
            | cases h

/-- C3 counterexample: the gate does not use the *best* domain-match
confidence. For domain `"g0ogle.onion"`, keywords
`["google", "g0ogle"]`, threshold 90 and no reference page, the keyword
`"g0ogle"` would match directly with confidence 100 ≥ 90 — so the claim
says the HTML is fetched — but `checkBrandSimilarity` returns the first
keyword's homoglyph match with confidence 85 < 90, and no fetch occurs. -/
theorem analyzeSearchResult_gate_not_best :
    (analyzeSearchResult nullCollaborators gateSearchResult gateProfile
      none gateOptions).2 = false ∧
    checkBrandSimilarity gateSearchResult.url gateProfile.keywords =
      some ⟨"google".toList, .homoglyph, 85⟩ ∧
    checkBrandKeyword (normalizeDomain gateSearchResult.url)
      "g0ogle".toList = some ⟨"g0ogle".toList, .direct_match, 100⟩ ∧
    gateOptions.similarityThreshold ≤ 100 := by
  refine ⟨?_, ?_, ?_, ?_⟩
  · with_unfolding_all decide
  · with_unfolding_all decide
  · with_unfolding_all decide
  · with_unfolding_all decide

set_option maxRecDepth 16384 in
/-- Witness for the amended C3: on `demoSearchResult` (no domain match, no
reference page, default options) the gate is closed and the produced
finding is the skipped finding with only the keyword-in-metadata
indicator. -/
theorem analyzeSearchResult_crawl_gate_witness :
    (analyzeSearchResult nullCollaborators demoSearchResult demoProfile
      none defaultOptions).2 = false ∧
    skippedFinding.was_crawled = some false ∧
    skippedFinding.crawl_reason = some skipReason ∧
    (IndicatorType.keyword_in_metadata = IndicatorType.domain_similarity ∨
      IndicatorType.keyword_in_metadata =
        IndicatorType.keyword_in_metadata) :=
  have hgate : (analyzeSearchResult nullCollaborators demoSearchResult
      demoProfile none defaultOptions).2 = false := by
    with_unfolding_all decide
  have hsome : (analyzeSearchResult nullCollaborators demoSearchResult
      demoProfile none defaultOptions).1 = some skippedFinding := by
    with_unfolding_all decide
  ⟨hgate,
    ((analyzeSearchResult_crawl_gate nullCollaborators demoSearchResult
      demoProfile none defaultOptions).2 hgate skippedFinding hsome).1,
    ((analyzeSearchResult_crawl_gate nullCollaborators demoSearchResult
      demoProfile none defaultOptions).2 hgate skippedFinding hsome).2.1,
    ((analyzeSearchResult_crawl_gate nullCollaborators demoSearchResult
      demoProfile none defaultOptions).2 hgate skippedFinding hsome).2.2
      IndicatorType.keyword_in_metadata (by with_unfolding_all decide)⟩

end Hub
